import Mathlib

/-!
# Verification of cockpitdecks simulator-interface behaviour

Shallow embedding, in Lean 4, of the parts of the cockpitdecks code base
(files cockpitdecks/simulator.py, cockpitdecks/simulators/xplane.py and
cockpitdecks/cockpit.py) that govern dataref monitoring, UDP subscription
management, value decoding and event delivery, together with proofs of the
specified properties.

Python dictionaries are embedded as insertion-ordered association lists;
Python (unbounded) integers as Int or Nat; float values carried by datarefs
as rationals (the code only compares, copies and decimal-rounds them).
Side effects relevant to the claims (listener notifications, frames sent on
the socket, events put on the queue) are returned explicitly.
-/

namespace Cockpitdecks

/-! ## Association lists: embedding of Python dict

Python dicts preserve insertion order; assignment to an existing key
updates it in place, assignment to a new key appends, `del` removes the
(unique) key.  All dicts built by the embedded code have pairwise distinct
keys, so deletion is embedded as removal of every pair with that key. -/

/-- Lookup of a key: first (unique) occurrence, as Python `d.get(k)`. -/
def alookup {α β : Type} [DecidableEq α] : List (α × β) → α → Option β
  | [], _ => none
  | (k, v) :: t, a => if k = a then some v else alookup t a

/-- Assignment `d[k] = v`: update in place if the key exists, append otherwise. -/
def aset {α β : Type} [DecidableEq α] : List (α × β) → α → β → List (α × β)
  | [], a, b => [(a, b)]
  | (k, v) :: t, a, b => if k = a then (a, b) :: t else (k, v) :: aset t a b

/-- Deletion `del d[k]` (keys are unique in every dict the code builds). -/
def aerase {α β : Type} [DecidableEq α] (t : List (α × β)) (a : α) : List (α × β) :=
  t.filter (fun kv => kv.1 ≠ a)

/-- First key whose value is `b`:
embeds `list(d.keys())[list(d.values()).index(b)]`. -/
def akeyOfValue {α β : Type} [DecidableEq β] : List (α × β) → β → Option α
  | [], _ => none
  | (k, v) :: t, b => if v = b then some k else akeyOfValue t b

theorem alookup_aset_self {α β : Type} [DecidableEq α]
    (t : List (α × β)) (a : α) (b : β) : alookup (aset t a b) a = some b := by
  induction t with
  | nil => simp [aset, alookup]
  | cons hd tl ih =>
    by_cases h : hd.1 = a
    · simp [aset, h, alookup]
    · simp [aset, h, alookup, ih]

theorem alookup_aset_other {α β : Type} [DecidableEq α]
    (t : List (α × β)) (a c : α) (b : β) (hne : a ≠ c) :
    alookup (aset t a b) c = alookup t c := by
  induction t with
  | nil => simp [aset, alookup, hne]
  | cons hd tl ih =>
    by_cases h : hd.1 = a
    · have hc : hd.1 ≠ c := by rw [h]; exact hne
      simp [aset, h, alookup, hne, hc]
    · simp only [aset, if_neg h]
      by_cases h2 : hd.1 = c
      · simp [alookup, h2]
      · simp [alookup, h2, ih]

theorem alookup_aerase_self {α β : Type} [DecidableEq α]
    (t : List (α × β)) (a : α) : alookup (aerase t a) a = none := by
  induction t with
  | nil => simp [aerase, alookup]
  | cons hd tl ih =>
    by_cases h : hd.1 = a
    · simpa [aerase, h] using ih
    · simpa [aerase, h, alookup] using ih

theorem alookup_aerase_other {α β : Type} [DecidableEq α]
    (t : List (α × β)) (a c : α) (hne : a ≠ c) :
    alookup (aerase t a) c = alookup t c := by
  induction t with
  | nil => simp [aerase]
  | cons hd tl ih =>
    by_cases h : hd.1 = a
    · have hc : hd.1 ≠ c := by rw [h]; exact hne
      simpa [aerase, List.filter_cons, h, alookup, hc, hne, hne.symm] using ih
    · by_cases h2 : hd.1 = c
      · simp [aerase, List.filter_cons, h, alookup, h2, hne, hne.symm]
      · simpa [aerase, List.filter_cons, h, alookup, h2, hne, hne.symm] using ih

/-! ## Dataref values and value update (cockpitdecks/simulator.py, class Dataref)

A dataref value is either a number (UDP always delivers floats; embedded as
a rational, since the code only copies, compares and decimal-rounds values)
or a string.  `current_value` / `previous_value` start as Python `None`,
embedded as `Option`.  Listener callbacks are embedded as an explicit list
of emitted notifications; listeners are identified by a numeric id. -/

inductive SimValue where
  | num (q : ℚ)
  | str (s : String)
  deriving DecidableEq

/-- A notification sent to a listener: `dataref_updated` (sent by
`notify_updated`) or `dataref_changed` (sent by `notify`). -/
inductive Notif where
  | updated (listener : Nat) (path : String)
  | changed (listener : Nat) (path : String)
  deriving DecidableEq

/-- Python `round` (banker's rounding / round-half-to-even) to an integer. -/
def roundHalfEven (x : ℚ) : ℤ :=
  let f : ℤ := Int.floor x
  let r : ℚ := x - f
  if r < 1 / 2 then f
  else if 1 / 2 < r then f + 1
  else if f % 2 = 0 then f else f + 1

/-- Python `round(x, n)` on a numeric value: round-half-even at `n` decimal
places. -/
def pyRound (x : ℚ) (n : ℕ) : ℚ :=
  (roundHalfEven (x * 10 ^ n) : ℚ) / 10 ^ n

/-- The observable state of a `Dataref` object (class `Dataref` in
cockpitdecks/simulator.py).  Raw value fields `_previous_value` /
`_current_value` are kept alongside the exposed (rounded) ones, as in the
source.  `round_digits` is the `_round` attribute. -/
structure Dataref where
  path : String
  is_string : Bool
  round_digits : Option Nat
  raw_previous_value : Option SimValue
  raw_current_value : Option SimValue
  previous_value : Option SimValue
  current_value : Option SimValue
  updated_count : Nat
  changed_count : Nat
  listeners : List Nat
  deriving DecidableEq

namespace Dataref

/-- `Dataref.round`: rounds only numeric values, and only when `_round`
is set. -/
def roundVal (d : Dataref) (v : SimValue) : SimValue :=
  match d.round_digits, v with
  | some n, .num q => .num (pyRound q n)
  | _, _ => v

/-- `Dataref.has_changed`: compares the exposed previous and current
values. -/
def has_changed (d : Dataref) : Bool :=
  match d.previous_value, d.current_value with
  | none, none => false
  | none, some _ => true
  | some _, none => true
  | some p, some c => c ≠ p

/-- `Dataref.notify`: sends `dataref_changed` to every listener, guarded by
`has_changed`. -/
def notify (d : Dataref) : List Notif :=
  if d.has_changed then d.listeners.map (fun l => Notif.changed l d.path) else []

/-- `Dataref.notify_updated`: sends `dataref_updated` to every listener,
unconditionally. -/
def notify_updated (d : Dataref) : List Notif :=
  d.listeners.map (fun l => Notif.updated l d.path)

/-- The assignment statements at the head of `Dataref.update_value`:
shift current to previous (raw and exposed), store the new value (rounded
unless the dataref is a string), and bump `_updated`. -/
def store_value (d : Dataref) (new_value : SimValue) : Dataref :=
  { d with
    raw_previous_value := d.raw_current_value
    raw_current_value := some new_value
    previous_value := d.current_value
    current_value := if d.is_string then some new_value else some (d.roundVal new_value)
    updated_count := d.updated_count + 1 }

/-- `Dataref.update_value(new_value, cascade)`: shifts current to previous,
stores the (rounded, unless string) new value, bumps `_updated`, always
calls `notify_updated`, and on a change bumps `_changed` and, if `cascade`,
calls `notify`.  Returns the updated object, the notifications emitted in
order, and the boolean result. -/
def update_value (d : Dataref) (new_value : SimValue) (cascade : Bool) :
    Dataref × List Notif × Bool :=
  let d1 : Dataref := d.store_value new_value
  let outUpd := d1.notify_updated
  if d1.has_changed then
    let d2 : Dataref := { d1 with changed_count := d1.changed_count + 1 }
    (d2, outUpd ++ (if cascade then d2.notify else []), true)
  else
    (d1, outUpd, false)

end Dataref

/-! ## Monitored-dataref reference counts (cockpitdecks/simulator.py,
class Simulator)

`datarefs_to_monitor` is a dict path → count.  `add_datarefs_to_monitor`
and `remove_datarefs_to_monitor` iterate over a dict of datarefs; we embed
the per-dataref loop bodies and fold them over the list of paths.
Counts are embedded as `Int` (Python integers), so that non-negativity is
a theorem, not a typing artifact.  Paths starting with the internal prefix
`"data:"` (`INTERNAL_DATAREF_PREFIX`) are skipped by both loops. -/

/-- `Dataref.is_internal_dataref` (a path starting with
INTERNAL_DATAREF_PREFIX = "data:"), on the code points of the path. -/
def is_internal_dataref (path : String) : Bool :=
  List.isPrefixOf ("data:".data.map Char.toNat) (path.data.map Char.toNat)

/-- Loop body of `Simulator.add_datarefs_to_monitor` for one dataref path:
skip internal paths; insert with count 1 if absent, else increment. -/
def addMonitorOne (t : List (String × Int)) (path : String) : List (String × Int) :=
  if is_internal_dataref path then t
  else
    match alookup t path with
    | none => aset t path 1
    | some c => aset t path (c + 1)

/-- Loop body of `Simulator.remove_datarefs_to_monitor` for one dataref
path: skip internal paths; if present, decrement and delete the entry when
the count reaches 0; if absent, only warn (table unchanged). -/
def removeMonitorOne (t : List (String × Int)) (path : String) : List (String × Int) :=
  if is_internal_dataref path then t
  else
    match alookup t path with
    | none => t
    | some c =>
      let t2 := aset t path (c - 1)
      if c - 1 = 0 then aerase t2 path else t2

/-- One monitoring call affecting a path: an `add_datarefs_to_monitor`
batch containing it (increment) or a `remove_datarefs_to_monitor` batch
containing it (decrement).  Each op carries the path it concerns, so a
sequence may interleave operations on many paths. -/
inductive RefOp where
  | inc (path : String)
  | dec (path : String)
  deriving DecidableEq

/-- Apply one monitoring operation to the `datarefs_to_monitor` table. -/
def applyRefOp (t : List (String × Int)) : RefOp → List (String × Int)
  | .inc p => addMonitorOne t p
  | .dec p => removeMonitorOne t p

/-- Apply a sequence of monitoring operations, starting from table `t`. -/
def applyRefOps (t : List (String × Int)) (ops : List RefOp) : List (String × Int) :=
  ops.foldl applyRefOp t

/-- One step of the count the specification prescribes for path `p`:
increment, or decrement clamped at 0 (`Nat` subtraction is exactly the
clamp); operations on other paths leave it alone. -/
def refStep (p : String) (n : ℕ) : RefOp → ℕ
  | .inc q => if q = p then n + 1 else n
  | .dec q => if q = p then n - 1 else n

/-- The count the specification prescribes for one path after a sequence
of operations: increments minus decrements, clamped at 0 at each step. -/
def specCount (p : String) (ops : List RefOp) : ℕ :=
  ops.foldl (refStep p) 0

/-! ## UDP subscription management (cockpitdecks/simulators/xplane.py,
class XPlane)

`datarefs` is the dict index → path of actively subscribed paths,
`datarefidx` the next index to assign.  The RREF frame built by
`struct.pack("<5sii400s", cmd, freq, idx, string)` is embedded as a list
of byte values. -/

/-- MAX_DREF_COUNT: maximum number of datarefs requested to X-Plane. -/
def MAX_DREF_COUNT : ℕ := 80

/-- XP_MIN_VERSION: minimal supported X-Plane version number. -/
def XP_MIN_VERSION : ℤ := 121100

/-- The little-endian 4-byte encoding of a (two's-complement) int32, as
produced by struct format "i". -/
def int32LE (n : ℤ) : List ℕ :=
  let m := (n % (2 ^ 32 : ℤ)).toNat
  [m % 2 ^ 8, m / 2 ^ 8 % 2 ^ 8, m / 2 ^ 16 % 2 ^ 8, m / 2 ^ 24 % 2 ^ 8]

/-- UTF-8 encoding of one Unicode code point. -/
def utf8Bytes (n : ℕ) : List ℕ :=
  if n < 128 then [n]
  else if n < 2048 then [192 + n / 64, 128 + n % 64]
  else if n < 65536 then [224 + n / 4096, 128 + n / 64 % 64, 128 + n % 64]
  else [240 + n / 262144, 128 + n / 4096 % 64, 128 + n / 64 % 64, 128 + n % 64]

/-- UTF-8 bytes of a string, as Python `str.encode()`. -/
def strBytes (s : String) : List ℕ :=
  (s.data.map (fun c => utf8Bytes c.toNat)).flatten

/-- struct format "400s": truncate to 400 bytes, pad with null bytes. -/
def pack400 (bytes : List ℕ) : List ℕ :=
  bytes.take 400 ++ List.replicate (400 - (bytes.take 400).length) 0

/-- b"RREF\x00": the 5-byte command tag. -/
def rrefTag : List ℕ := [82, 82, 69, 70, 0]

/-- The RREF request frame
`struct.pack("<5sii400s", b"RREF\x00", freq, idx, path.encode())`. -/
def encodeRREF (freq idx : ℤ) (path : String) : List ℕ :=
  rrefTag ++ int32LE freq ++ int32LE idx ++ pack400 (strBytes path)

/-- The part of the XPlane object state that subscription management
touches: the index counter, the index → path table, the high-water mark
`_max_monitored`, whether a beacon has been received (`connected`, i.e.
"IP" in beacon_data), and the class attribute DEFAULT_REQ_FREQUENCY. -/
structure XPlaneState where
  datarefidx : ℕ
  datarefs : List (ℕ × String)
  max_monitored : ℕ
  connected : Bool
  default_req_frequency : ℤ
  deriving DecidableEq

namespace XPlane

/-- `XPlane.add_dataref_to_monitor(path, freq)`: returns the new state, the
boolean result, and the RREF frame sent on the socket (if any).
`freqArg = none` embeds the Python default `freq=None`, resolved to
DEFAULT_REQ_FREQUENCY. -/
def add_dataref_to_monitor (st : XPlaneState) (path : String) (freqArg : Option ℤ) :
    XPlaneState × Bool × Option (List ℕ) :=
  if is_internal_dataref path then (st, false, none)
  else if ¬ st.connected then (st, false, none)
  else
    let freq := freqArg.getD st.default_req_frequency
    match akeyOfValue st.datarefs path with
    | some idx =>
      -- path already subscribed: freq 0 deletes its index entry
      let st1 := if freq = 0 then { st with datarefs := aerase st.datarefs idx } else st
      let st2 := { st1 with max_monitored := max st1.max_monitored st1.datarefs.length }
      (st2, true, some (encodeRREF freq idx path))
    | none =>
      if freq ≠ 0 ∧ st.datarefs.length > MAX_DREF_COUNT then
        (st, false, none)
      else
        let idx := st.datarefidx
        let st1 := { st with
          datarefs := aset st.datarefs st.datarefidx path
          datarefidx := st.datarefidx + 1 }
        let st2 := { st1 with max_monitored := max st1.max_monitored st1.datarefs.length }
        (st2, true, some (encodeRREF freq idx path))

/-- The loop of `XPlane.clean_datarefs_to_monitor`: `len(datarefs)` times,
unsubscribe the first entry of the table (freq 0). -/
def clean_loop : ℕ → XPlaneState → XPlaneState
  | 0, st => st
  | n + 1, st =>
    match st.datarefs with
    | [] => st
    | (_, p) :: _ => clean_loop n (add_dataref_to_monitor st p (some 0)).1

/-- `XPlane.clean_datarefs_to_monitor`, restricted to its effect on the
subscription state (it also resets the Simulator refcount table and the
value caches, which are not part of `XPlaneState`).  Does nothing when not
connected. -/
def clean_datarefs_to_monitor (st : XPlaneState) : XPlaneState :=
  if st.connected then clean_loop st.datarefs.length st else st

/-- `XPlane.start`, restricted to its effect on the subscription state:
when connected, clean the subscription table, then re-subscribe (via
`add_all_datarefs_to_monitor`) the always-monitored datetime datarefs and
every path of `datarefs_to_monitor` with its update frequency, passed here
as the list `monitored`.  Thread creation and page reloading have no effect
on `XPlaneState`.  Note: `datarefidx` is not touched anywhere in `start`. -/
def start (st : XPlaneState) (monitored : List (String × Option ℤ)) : XPlaneState :=
  if ¬ st.connected then st
  else
    let st1 := clean_datarefs_to_monitor st
    monitored.foldl (fun s pf => (add_dataref_to_monitor s pf.1 pf.2).1) st1

end XPlane

/-! ## Beacon discovery (cockpitdecks/simulators/xplane.py,
class XPlaneBeacon) -/

/-- The fields decoded from a beacon packet by
`struct.unpack("<BBiiIH", data)`. -/
structure BeaconFields where
  beacon_major_version : ℕ
  beacon_minor_version : ℕ
  application_host_id : ℤ
  xplane_version_number : ℤ
  role : ℕ
  port : ℕ
  deriving DecidableEq

/-- Outcome of `XPlaneBeacon.FindIp` on one received packet (`none` embeds
a socket timeout; the `Bool` is whether the packet header is b"BECN\x00"). -/
inductive FindIpResult where
  | found (version : ℤ) (port : ℕ)
  | notBeacon
  | versionNotSupported
  | ipNotFound
  deriving DecidableEq

/-- `XPlaneBeacon.FindIp`: accepts the beacon (filling `beacon_data`) when
`beacon_major_version == 1 and beacon_minor_version <= 2 and
application_host_id == 1`; raises XPlaneVersionNotSupported otherwise;
raises XPlaneIpNotFound on timeout; a non-BECN header is only warned
about, leaving `beacon_data` empty. -/
def FindIp (pkt : Option (Bool × BeaconFields)) : FindIpResult :=
  match pkt with
  | none => .ipNotFound
  | some (headerOk, b) =>
    if ¬ headerOk then .notBeacon
    else if b.beacon_major_version = 1 ∧ b.beacon_minor_version ≤ 2 ∧
        b.application_host_id = 1 then
      .found b.xplane_version_number b.port
    else .versionNotSupported

/-- Outcome of one iteration of `XPlaneBeacon.connect_loop` while
disconnected: either `self.start()` was called (with a logged version
warning iff the advertised X-Plane version is below XP_MIN_VERSION), or an
exception was caught and the data channels were not started. -/
inductive AttemptOutcome where
  | started (versionWarning : Bool)
  | versionError
  | notFoundError
  | noConnection
  deriving DecidableEq

/-- One connection attempt of `XPlaneBeacon.connect_loop`: calls `FindIp`;
if connected, compares the beacon version with XP_MIN_VERSION (warning
only) and calls `self.start()`; the two exceptions reset `beacon_data` and
skip the start. -/
def connectAttempt (pkt : Option (Bool × BeaconFields)) : AttemptOutcome :=
  match FindIp pkt with
  | .found v _ => .started (v < XP_MIN_VERSION)
  | .notBeacon => .noConnection
  | .versionNotSupported => .versionError
  | .ipNotFound => .notFoundError

/-! ## UDP value decoding (cockpitdecks/simulators/xplane.py,
`XPlane.udp_enqueue`) -/

/-- The body of the per-value loop of `XPlane.udp_enqueue` for one decoded
`(idx, value)` pair: resolve the index to a path; normalize a float in
(-0.001, 0) to +0.0; apply the dataref rounding to obtain the cache value
`v`; when the cache has no entry for the path or a different one, store `v`
and enqueue a DatarefEvent carrying the (normalized, unrounded) value, with
cascade set iff the path is in `datarefs_to_monitor`.  (The special
handling of the zulu-seconds dataref only writes an internal dataref and is
omitted.)  Returns the new `_dref_cache` and the enqueued event, if any, as
(path, value, cascade). -/
def udpProcessValue (datarefs : List (ℕ × String)) (cache : List (String × ℚ))
    (rounding : String → Option ℕ) (monitorTable : List (String × ℤ))
    (idx : ℕ) (value : ℚ) :
    List (String × ℚ) × Option (String × ℚ × Bool) :=
  match alookup datarefs idx with
  | none => (cache, none)
  | some d =>
    let value := if value < 0 ∧ -(1 / 1000) < value then (0 : ℚ) else value
    let v := match rounding d with
      | some r => pyRound value r
      | none => value
    if (alookup cache d).isNone ∨ ((alookup cache d).isSome ∧ alookup cache d ≠ some v) then
      (aset cache d v, some (d, value, (alookup monitorTable d).isSome))
    else
      (cache, none)

/-! ## Event queue and event loop (cockpitdecks/cockpit.py,
`Cockpit.event_loop`)

`event_queue` is a `queue.Queue` (FIFO): producers `put` at the tail, the
single consumer thread `get`s from the head and fully processes the item
(`e.run(just_do_it=True)`, or the string-command handling) before the next
`get`.  We embed the system as a state machine whose steps are an enqueue
by some producer or one iteration of the consumer loop, plus a ghost
history of all enqueued items in order. -/

/-- An item on the event queue: a string command or a simulator/deck
event (identified by a number). -/
inductive QItem where
  | cmd (s : String)
  | ev (id : ℕ)
  deriving DecidableEq

/-- State of the queue/event-loop system.  `enqueued` is the ghost list of
every item ever put, in the global order in which the puts took effect. -/
structure LoopState where
  queue : List QItem
  delivered : List QItem
  enqueued : List QItem
  running : Bool
  deriving DecidableEq

/-- A step of the system: some producer puts an item, or the consumer runs
one iteration of `Cockpit.event_loop`. -/
inductive LoopStep where
  | put (it : QItem)
  | consume
  deriving DecidableEq

/-- Step semantics.  A consume on an empty queue blocks (`event_queue.get()`),
i.e. changes nothing; processing the "terminate" command stops the loop
(`stop_event_loop` sets `event_loop_run = False`); once stopped, the
consumer processes nothing further. -/
def loopStep (st : LoopState) : LoopStep → LoopState
  | .put it => { st with queue := st.queue ++ [it], enqueued := st.enqueued ++ [it] }
  | .consume =>
    if st.running then
      match st.queue with
      | [] => st
      | e :: rest =>
        { st with
          queue := rest
          delivered := st.delivered ++ [e]
          running := if e = .cmd "terminate" then false else st.running }
    else st

/-- Run a sequence of interleaved steps. -/
def runLoop (st : LoopState) (steps : List LoopStep) : LoopState :=
  steps.foldl loopStep st

/-- The initial state: empty queue, loop running
(`start_event_loop` sets `event_loop_run = True` before the thread starts). -/
def initLoopState : LoopState := ⟨[], [], [], true⟩

/-- Is a notification a `dataref_updated` callback? -/
def Notif.isUpdated : Notif → Bool
  | .updated _ _ => true
  | .changed _ _ => false

/-- Is a notification a `dataref_changed` callback? -/
def Notif.isChanged : Notif → Bool
  | .updated _ _ => false
  | .changed _ _ => true

/-! ## Theorems -/

/-! ### C1: refcount invariant of the datarefs_to_monitor table -/

/-- Relation between the `datarefs_to_monitor` table and the
specification's clamped count for one path: count 0 iff absent, otherwise
the entry holds exactly the (positive) count. -/
def MonInv (t : List (String × ℤ)) (p : String) (n : ℕ) : Prop :=
  (n = 0 ∧ alookup t p = none) ∨ (0 < n ∧ alookup t p = some (n : ℤ))

theorem alookup_addMonitorOne_other (t : List (String × ℤ)) (p q : String)
    (hq : q ≠ p) : alookup (addMonitorOne t q) p = alookup t p := by
  unfold addMonitorOne
  by_cases hint : is_internal_dataref q
  · simp [hint]
  · cases hcq : alookup t q <;>
      simp [hint, hcq, alookup_aset_other _ _ _ _ hq]

theorem alookup_removeMonitorOne_other (t : List (String × ℤ)) (p q : String)
    (hq : q ≠ p) : alookup (removeMonitorOne t q) p = alookup t p := by
  unfold removeMonitorOne
  by_cases hint : is_internal_dataref q
  · simp [hint]
  · cases hcq : alookup t q with
    | none => simp [hint, hcq]
    | some c =>
      by_cases hz : c - 1 = 0
      · simp [hint, hcq, hz, alookup_aerase_other _ _ _ hq,
          alookup_aset_other _ _ _ _ hq]
      · simp [hint, hcq, hz, alookup_aset_other _ _ _ _ hq]

theorem monInv_applyRefOp (p : String) (hp : is_internal_dataref p = false)
    (t : List (String × ℤ)) (n : ℕ) (op : RefOp) (h : MonInv t p n) :
    MonInv (applyRefOp t op) p (refStep p n op) := by
  cases op with
  | inc q =>
    by_cases hq : q = p
    · subst hq
      have hr : refStep q n (RefOp.inc q) = n + 1 := by simp [refStep]
      rw [hr]
      rcases h with ⟨hn, hl⟩ | ⟨hn, hl⟩
      · subst hn
        refine Or.inr ⟨Nat.succ_pos 0, ?_⟩
        simp [applyRefOp, addMonitorOne, hp, hl, alookup_aset_self]
      · refine Or.inr ⟨Nat.succ_pos n, ?_⟩
        simp [applyRefOp, addMonitorOne, hp, hl, alookup_aset_self]
    · have hr : refStep p n (RefOp.inc q) = n := by simp [refStep, hq]
      have heq : alookup (applyRefOp t (.inc q)) p = alookup t p :=
        alookup_addMonitorOne_other t p q hq
      unfold MonInv at h ⊢
      rw [heq, hr]
      exact h
  | dec q =>
    by_cases hq : q = p
    · subst hq
      have hr : refStep q n (RefOp.dec q) = n - 1 := by simp [refStep]
      rw [hr]
      rcases h with ⟨hn, hl⟩ | ⟨hn, hl⟩
      · subst hn
        refine Or.inl ⟨rfl, ?_⟩
        simp [applyRefOp, removeMonitorOne, hp, hl]
      · by_cases h1 : n = 1
        · subst h1
          refine Or.inl ⟨rfl, ?_⟩
          simp [applyRefOp, removeMonitorOne, hp, hl, alookup_aerase_self]
        · have h2 : 2 ≤ n := by omega
          refine Or.inr ⟨by omega, ?_⟩
          have hz : ¬((n : ℤ) - 1 = 0) := by omega
          simp [applyRefOp, removeMonitorOne, hp, hl, hz, alookup_aset_self]
          push_cast [Nat.cast_sub (by omega : 1 ≤ n)]
          ring
    · have hr : refStep p n (RefOp.dec q) = n := by simp [refStep, hq]
      have heq : alookup (applyRefOp t (.dec q)) p = alookup t p :=
        alookup_removeMonitorOne_other t p q hq
      unfold MonInv at h ⊢
      rw [heq, hr]
      exact h

theorem monInv_applyRefOps (p : String) (hp : is_internal_dataref p = false)
    (ops : List RefOp) :
    ∀ (t : List (String × ℤ)) (n : ℕ), MonInv t p n →
      MonInv (applyRefOps t ops) p (ops.foldl (refStep p) n) := by
  induction ops with
  | nil => intro t n h; simpa [applyRefOps] using h
  | cons op rest ih =>
    intro t n h
    have h1 := monInv_applyRefOp p hp t n op h
    simpa [applyRefOps, List.foldl_cons] using
      ih (applyRefOp t op) (refStep p n op) h1

/-- C1 (confirmed).  Refcount invariant of `Simulator.datarefs_to_monitor`
under any interleaved sequence of `add_datarefs_to_monitor` /
`remove_datarefs_to_monitor` loop iterations starting from the empty
table: the count stored for a (non-internal) path equals the number of its
increments minus its decrements clamped at 0 at each step, and is strictly
positive whenever the path is present; the path is absent exactly when
that clamped count is 0; and a decrement for a path not in the table
leaves the table unchanged. -/
theorem refcount_invariant (p : String) (hp : is_internal_dataref p = false)
    (ops : List RefOp) :
    (∀ c : ℤ, alookup (applyRefOps [] ops) p = some c →
      c = (specCount p ops : ℤ) ∧ 0 < c)
    ∧ (alookup (applyRefOps [] ops) p = none ↔ specCount p ops = 0)
    ∧ (∀ t : List (String × ℤ), alookup t p = none →
        removeMonitorOne t p = t) := by
  have hinv : MonInv (applyRefOps [] ops) p (specCount p ops) :=
    monInv_applyRefOps p hp ops [] 0 (Or.inl ⟨rfl, rfl⟩)
  refine ⟨?_, ?_, ?_⟩
  · intro c hc
    rcases hinv with ⟨_, hl⟩ | ⟨hpos, hl⟩
    · rw [hl] at hc; cases hc
    · rw [hl] at hc
      injection hc with hc
      subst hc
      exact ⟨rfl, by exact_mod_cast hpos⟩
  · constructor
    · intro hnone
      rcases hinv with ⟨hn, _⟩ | ⟨_, hl⟩
      · exact hn
      · rw [hl] at hnone; cases hnone
    · intro hz
      rcases hinv with ⟨_, hl⟩ | ⟨hpos, _⟩
      · exact hl
      · omega
  · intro t hnone
    unfold removeMonitorOne
    by_cases hint : is_internal_dataref p
    · simp [hint]
    · simp [hint, hnone]

/-- Witness for C1 at a concrete input: the path "sim/alt" is not internal,
and after inc, inc, dec (interleaved with ops on another path) its count
is 1 = 2 − 1; decrementing the untracked path "sim/alt" in the empty table
changes nothing. -/
theorem refcount_invariant_witness :
    is_internal_dataref "sim/alt" = false
    ∧ (∀ c : ℤ,
        alookup
          (applyRefOps []
            [RefOp.inc "sim/alt", RefOp.inc "other", RefOp.inc "sim/alt",
              RefOp.dec "sim/alt"]) "sim/alt" = some c →
        c = (specCount "sim/alt"
          [RefOp.inc "sim/alt", RefOp.inc "other", RefOp.inc "sim/alt",
            RefOp.dec "sim/alt"] : ℤ) ∧ 0 < c)
    ∧ removeMonitorOne [] "sim/alt" = [] := by
  refine ⟨by decide, ?_, ?_⟩
  · exact (refcount_invariant "sim/alt" (by decide)
      [RefOp.inc "sim/alt", RefOp.inc "other", RefOp.inc "sim/alt",
        RefOp.dec "sim/alt"]).1
  · exact (refcount_invariant "sim/alt" (by decide) []).2.2 [] rfl


/-! ### C2, C3, C4: subscription table management -/

/-- Case analysis of `XPlane.add_dataref_to_monitor`: internal path. -/
theorem add_dataref_internal (st : XPlaneState) (path : String)
    (freqArg : Option ℤ) (h : is_internal_dataref path = true) :
    XPlane.add_dataref_to_monitor st path freqArg = (st, false, none) := by
  simp [XPlane.add_dataref_to_monitor, h]

/-- Case analysis of `XPlane.add_dataref_to_monitor`: not connected. -/
theorem add_dataref_not_connected (st : XPlaneState) (path : String)
    (freqArg : Option ℤ) (h1 : is_internal_dataref path = false)
    (h2 : st.connected = false) :
    XPlane.add_dataref_to_monitor st path freqArg = (st, false, none) := by
  simp [XPlane.add_dataref_to_monitor, h1, h2]

/-- Case analysis of `XPlane.add_dataref_to_monitor`: path already
subscribed at index `idx`, frequency 0: its entry is deleted and an RREF
cancellation frame for `idx` is sent. -/
theorem add_dataref_found_zero (st : XPlaneState) (path : String)
    (freqArg : Option ℤ) (idx : ℕ)
    (h1 : is_internal_dataref path = false) (h2 : st.connected = true)
    (h3 : akeyOfValue st.datarefs path = some idx)
    (h4 : freqArg.getD st.default_req_frequency = 0) :
    XPlane.add_dataref_to_monitor st path freqArg =
      ({ st with
          datarefs := aerase st.datarefs idx
          max_monitored := max st.max_monitored (aerase st.datarefs idx).length },
        true, some (encodeRREF 0 (idx : ℤ) path)) := by
  simp [XPlane.add_dataref_to_monitor, h1, h2, h3, h4]

/-- Case analysis of `XPlane.add_dataref_to_monitor`: path already
subscribed at index `idx`, nonzero frequency: table unchanged, RREF frame
re-sent with the existing index. -/
theorem add_dataref_found_nonzero (st : XPlaneState) (path : String)
    (freqArg : Option ℤ) (idx : ℕ)
    (h1 : is_internal_dataref path = false) (h2 : st.connected = true)
    (h3 : akeyOfValue st.datarefs path = some idx)
    (h4 : freqArg.getD st.default_req_frequency ≠ 0) :
    XPlane.add_dataref_to_monitor st path freqArg =
      ({ st with max_monitored := max st.max_monitored st.datarefs.length },
        true,
        some (encodeRREF (freqArg.getD st.default_req_frequency) (idx : ℤ) path)) := by
  simp [XPlane.add_dataref_to_monitor, h1, h2, h3, h4]

/-- Case analysis of `XPlane.add_dataref_to_monitor`: new path, nonzero
frequency, table over capacity: the call fails and nothing changes. -/
theorem add_dataref_capacity (st : XPlaneState) (path : String)
    (freqArg : Option ℤ)
    (h1 : is_internal_dataref path = false) (h2 : st.connected = true)
    (h3 : akeyOfValue st.datarefs path = none)
    (h4 : freqArg.getD st.default_req_frequency ≠ 0)
    (h5 : MAX_DREF_COUNT < st.datarefs.length) :
    XPlane.add_dataref_to_monitor st path freqArg = (st, false, none) := by
  simp [XPlane.add_dataref_to_monitor, h1, h2, h3, h4, h5]

/-- Case analysis of `XPlane.add_dataref_to_monitor`: new path, accepted:
it is appended at index `datarefidx` and the counter is incremented. -/
theorem add_dataref_new (st : XPlaneState) (path : String)
    (freqArg : Option ℤ)
    (h1 : is_internal_dataref path = false) (h2 : st.connected = true)
    (h3 : akeyOfValue st.datarefs path = none)
    (h4 : ¬(freqArg.getD st.default_req_frequency ≠ 0 ∧
        MAX_DREF_COUNT < st.datarefs.length)) :
    XPlane.add_dataref_to_monitor st path freqArg =
      ({ st with
          datarefs := aset st.datarefs st.datarefidx path
          datarefidx := st.datarefidx + 1
          max_monitored :=
            max st.max_monitored (aset st.datarefs st.datarefidx path).length },
        true,
        some (encodeRREF (freqArg.getD st.default_req_frequency)
          (st.datarefidx : ℤ) path)) := by
  simp only [XPlane.add_dataref_to_monitor, h1, h2, h3]
  push_neg at h4
  simp [MAX_DREF_COUNT]
  intro hfreq
  simpa [MAX_DREF_COUNT] using h4 hfreq

/-- Keys of an association list after an assignment: the old keys plus the
assigned key. -/
theorem mem_keys_aset {α β : Type} [DecidableEq α]
    (t : List (α × β)) (a : α) (b : β) (k : α) :
    k ∈ (aset t a b).map Prod.fst ↔ k ∈ t.map Prod.fst ∨ k = a := by
  induction t with
  | nil => simp [aset]
  | cons hd tl ih =>
    by_cases h : hd.1 = a
    · subst h
      simp [aset]
      tauto
    · simp [aset, h, ih]
      tauto

/-- Assigning a fresh key appends the pair at the end. -/
theorem aset_eq_append {α β : Type} [DecidableEq α]
    (t : List (α × β)) (a : α) (b : β) (h : a ∉ t.map Prod.fst) :
    aset t a b = t ++ [(a, b)] := by
  induction t with
  | nil => simp [aset]
  | cons hd tl ih =>
    simp only [List.map_cons, List.mem_cons] at h
    push_neg at h
    have h1 : hd.1 ≠ a := fun hc => h.1 hc.symm
    simp [aset, h1, ih h.2]

/-- Keys after a deletion are among the original keys. -/
theorem mem_keys_aerase {α β : Type} [DecidableEq α]
    (t : List (α × β)) (a k : α)
    (h : k ∈ (aerase t a).map Prod.fst) : k ∈ t.map Prod.fst := by
  simp only [aerase, List.mem_map] at h ⊢
  rcases h with ⟨x, hx, rfl⟩
  exact ⟨x, (List.mem_filter.mp hx).1, rfl⟩

/-- All assigned indices lie strictly below the index counter: the
invariant that makes `datarefidx` a fresh, never-reused index. -/
def KeysBelow (st : XPlaneState) : Prop :=
  ∀ k ∈ st.datarefs.map Prod.fst, k < st.datarefidx

instance (st : XPlaneState) : Decidable (KeysBelow st) := by
  unfold KeysBelow
  infer_instance

/-- One `add_dataref_to_monitor` call preserves the index invariant and
never decreases the index counter. -/
theorem add_preserves (st : XPlaneState) (path : String) (freqArg : Option ℤ)
    (h : KeysBelow st) :
    KeysBelow (XPlane.add_dataref_to_monitor st path freqArg).1
    ∧ st.datarefidx ≤ (XPlane.add_dataref_to_monitor st path freqArg).1.datarefidx := by
  by_cases h1 : is_internal_dataref path = true
  · rw [add_dataref_internal st path freqArg h1]
    exact ⟨h, le_refl _⟩
  · have h1f : is_internal_dataref path = false := by
      simpa using h1
    cases h2 : st.connected with
    | false =>
      rw [add_dataref_not_connected st path freqArg h1f h2]
      exact ⟨h, le_refl _⟩
    | true =>
      cases h3 : akeyOfValue st.datarefs path with
      | some idx =>
        by_cases h4 : freqArg.getD st.default_req_frequency = 0
        · rw [add_dataref_found_zero st path freqArg idx h1f h2 h3 h4]
          exact ⟨fun k hk => h k (mem_keys_aerase st.datarefs idx k hk), le_refl _⟩
        · rw [add_dataref_found_nonzero st path freqArg idx h1f h2 h3 h4]
          exact ⟨fun k hk => h k hk, le_refl _⟩
      | none =>
        by_cases h4 : freqArg.getD st.default_req_frequency ≠ 0 ∧
            MAX_DREF_COUNT < st.datarefs.length
        · rw [add_dataref_capacity st path freqArg h1f h2 h3 h4.1 h4.2]
          exact ⟨h, le_refl _⟩
        · rw [add_dataref_new st path freqArg h1f h2 h3 h4]
          refine ⟨?_, Nat.le_succ _⟩
          intro k hk
          rcases (mem_keys_aset st.datarefs st.datarefidx path k).mp hk with hm | he
          · exact Nat.lt_succ_of_lt (h k hm)
          · rw [he]
            exact Nat.lt_succ_self _

/-- The cleanup loop preserves the index invariant and leaves the counter
alone (it only ever deletes entries). -/
theorem clean_loop_preserves (n : ℕ) :
    ∀ st : XPlaneState, KeysBelow st →
      KeysBelow (XPlane.clean_loop n st)
      ∧ st.datarefidx ≤ (XPlane.clean_loop n st).datarefidx := by
  induction n with
  | zero => intro st h; exact ⟨h, le_refl _⟩
  | succ m ih =>
    intro st h
    cases hds : st.datarefs with
    | nil =>
      have heq : XPlane.clean_loop (m + 1) st = st := by
        simp [XPlane.clean_loop, hds]
      rw [heq]
      exact ⟨h, le_refl _⟩
    | cons hd tl =>
      obtain ⟨k0, p0⟩ := hd
      have hstep : XPlane.clean_loop (m + 1) st
          = XPlane.clean_loop m (XPlane.add_dataref_to_monitor st p0 (some 0)).1 := by
        simp [XPlane.clean_loop, hds]
      rw [hstep]
      have h1 := add_preserves st p0 (some 0) h
      have h2 := ih _ h1.1
      exact ⟨h2.1, le_trans h1.2 h2.2⟩

/-- Re-subscribing a list of paths preserves the index invariant and never
decreases the counter. -/
theorem foldl_add_preserves (l : List (String × Option ℤ)) :
    ∀ s : XPlaneState, KeysBelow s →
      KeysBelow (l.foldl
        (fun s pf => (XPlane.add_dataref_to_monitor s pf.1 pf.2).1) s)
      ∧ s.datarefidx ≤ (l.foldl
        (fun s pf => (XPlane.add_dataref_to_monitor s pf.1 pf.2).1) s).datarefidx := by
  induction l with
  | nil => intro s hs; exact ⟨hs, le_refl _⟩
  | cons hd tl ih =>
    intro s hs
    have h1 := add_preserves s hd.1 hd.2 hs
    have h2 := ih (XPlane.add_dataref_to_monitor s hd.1 hd.2).1 h1.1
    exact ⟨by simpa using h2.1, le_trans h1.2 (by simpa using h2.2)⟩

theorem clean_preserves (st : XPlaneState) (h : KeysBelow st) :
    KeysBelow (XPlane.clean_datarefs_to_monitor st)
    ∧ st.datarefidx ≤ (XPlane.clean_datarefs_to_monitor st).datarefidx := by
  cases hconn : st.connected with
  | false =>
    have heq : XPlane.clean_datarefs_to_monitor st = st := by
      simp [XPlane.clean_datarefs_to_monitor, hconn]
    rw [heq]
    exact ⟨h, le_refl _⟩
  | true =>
    have heq : XPlane.clean_datarefs_to_monitor st
        = XPlane.clean_loop st.datarefs.length st := by
      simp [XPlane.clean_datarefs_to_monitor, hconn]
    rw [heq]
    exact clean_loop_preserves st.datarefs.length st h

/-- `XPlane.start` (in particular on reconnection) preserves the index
invariant and never resets the index counter. -/
theorem start_preserves (st : XPlaneState) (monitored : List (String × Option ℤ))
    (h : KeysBelow st) :
    KeysBelow (XPlane.start st monitored)
    ∧ st.datarefidx ≤ (XPlane.start st monitored).datarefidx := by
  cases hconn : st.connected with
  | false =>
    have heq : XPlane.start st monitored = st := by
      simp [XPlane.start, hconn]
    rw [heq]
    exact ⟨h, le_refl _⟩
  | true =>
    have heq : XPlane.start st monitored
        = monitored.foldl
            (fun s pf => (XPlane.add_dataref_to_monitor s pf.1 pf.2).1)
            (XPlane.clean_datarefs_to_monitor st) := by
      simp [XPlane.start, hconn]
    rw [heq]
    have hc := clean_preserves st h
    have hf := foldl_add_preserves monitored (XPlane.clean_datarefs_to_monitor st) hc.1
    exact ⟨hf.1, le_trans hc.2 hf.2⟩

/-- A subscription table holding exactly MAX_DREF_COUNT (80) entries. -/
def table80 : List (ℕ × String) :=
  (List.range 80).map (fun i => (i, "p" ++ toString i))

/-- A connected XPlane state whose table holds exactly 80 entries. -/
def st80 : XPlaneState := ⟨80, table80, 80, true, 1⟩

/-- A subscription table holding 81 entries. -/
def table81 : List (ℕ × String) :=
  (List.range 81).map (fun i => (i, "p" ++ toString i))

/-- A connected XPlane state whose table holds 81 entries. -/
def st81 : XPlaneState := ⟨81, table81, 81, true, 1⟩

/-- C2, counterexample.  With the table already holding exactly the
configured maximum of MAX_DREF_COUNT = 80 entries, subscribing a new path
with nonzero frequency does NOT fail: the capacity guard is
`len(self.datarefs) > MAX_DREF_COUNT` (strict), so the call succeeds and
grows the table to 81 entries, contradicting the claim that at the maximum
the call fails and leaves the table unchanged. -/
theorem capacity_bound_counterexample :
    st80.datarefs.length = MAX_DREF_COUNT
    ∧ akeyOfValue st80.datarefs "sim/new" = none
    ∧ (XPlane.add_dataref_to_monitor st80 "sim/new" (some 1)).2.1 = true
    ∧ (XPlane.add_dataref_to_monitor st80 "sim/new" (some 1)).1.datarefs.length
        = MAX_DREF_COUNT + 1 := by
  decide

/-- C2 (corrected).  The capacity bound trips only when the table already
holds strictly more than MAX_DREF_COUNT entries (at least 81): then
subscribing a new (non-internal) path with nonzero frequency fails — by
returning False, there is no exception type — sends no frame, and leaves
the whole state (table, index counter, connection flag) unchanged. -/
theorem capacity_bound (st : XPlaneState) (path : String) (freqArg : Option ℤ)
    (h1 : is_internal_dataref path = false) (h2 : st.connected = true)
    (h3 : akeyOfValue st.datarefs path = none)
    (h4 : freqArg.getD st.default_req_frequency ≠ 0)
    (h5 : MAX_DREF_COUNT < st.datarefs.length) :
    (XPlane.add_dataref_to_monitor st path freqArg).2.1 = false
    ∧ (XPlane.add_dataref_to_monitor st path freqArg).1 = st
    ∧ (XPlane.add_dataref_to_monitor st path freqArg).1.datarefidx = st.datarefidx
    ∧ (XPlane.add_dataref_to_monitor st path freqArg).1.connected = st.connected
    ∧ (XPlane.add_dataref_to_monitor st path freqArg).2.2 = none := by
  rw [add_dataref_capacity st path freqArg h1 h2 h3 h4 h5]
  exact ⟨rfl, rfl, rfl, rfl, rfl⟩

/-- Witness for C2 at a concrete over-capacity state (81 entries). -/
theorem capacity_bound_witness :
    MAX_DREF_COUNT < st81.datarefs.length
    ∧ (XPlane.add_dataref_to_monitor st81 "sim/new" (some 1)).2.1 = false
    ∧ (XPlane.add_dataref_to_monitor st81 "sim/new" (some 1)).1 = st81 := by
  have h := capacity_bound st81 "sim/new" (some 1) (by decide) (by decide)
    (by decide) (by decide) (by decide)
  exact ⟨by decide, h.1, h.2.1⟩

/-- The initial XPlane subscription state once the first beacon has been
received: index counter 0, empty table, connected. -/
def xpInit : XPlaneState := ⟨0, [], 0, true, 1⟩

/-- First connection: one path actively subscribed, receiving index 0. -/
def xpAfterFirstAdd : XPlaneState :=
  (XPlane.add_dataref_to_monitor xpInit "sim/alt" (some 1)).1

/-- Connection lost (`beacon_data = {}` after repeated socket timeouts). -/
def xpDisconnected : XPlaneState := { xpAfterFirstAdd with connected := false }

/-- Beacon found again: Disconnected → Connected transition. -/
def xpReconnected : XPlaneState := { xpDisconnected with connected := true }

/-- C3, counterexample.  On the first connection the path "sim/alt" gets
index 0; after a disconnect and reconnect, `start` re-subscribes it — but
`datarefidx` is never reset, so the first newly activated path of the new
connection receives index 1, not index 0 as the claim requires. -/
theorem index_reset_counterexample :
    xpAfterFirstAdd.datarefs = [(0, "sim/alt")]
    ∧ (XPlane.start xpReconnected [("sim/alt", some 1)]).datarefs
        = [(1, "sim/alt")]
    ∧ akeyOfValue (XPlane.start xpReconnected [("sim/alt", some 1)]).datarefs
        "sim/alt" ≠ some 0 := by
  decide

/-- C3 (corrected).  Index assignment is monotonic and indices are never
reused — not only during one live connection but across the whole process
lifetime, because `start` (run again on reconnection) never resets
`datarefidx`: under the invariant that all assigned indices lie below the
counter, (i) any `add_dataref_to_monitor` call preserves the invariant and
never decreases the counter, (ii) a newly accepted path is appended with
the fresh index `datarefidx`, which is not among the existing indices, and
the counter becomes `datarefidx + 1`, and (iii) `start` preserves the
invariant and never decreases the counter — so after a reconnect, the
first newly activated path continues the previous connection's numbering
instead of restarting at 0. -/
theorem index_assignment (st : XPlaneState) (path : String) (freqArg : Option ℤ)
    (monitored : List (String × Option ℤ)) (hkb : KeysBelow st) :
    KeysBelow (XPlane.add_dataref_to_monitor st path freqArg).1
    ∧ st.datarefidx ≤ (XPlane.add_dataref_to_monitor st path freqArg).1.datarefidx
    ∧ (is_internal_dataref path = false → st.connected = true →
        akeyOfValue st.datarefs path = none →
        ¬(freqArg.getD st.default_req_frequency ≠ 0 ∧
            MAX_DREF_COUNT < st.datarefs.length) →
        st.datarefidx ∉ st.datarefs.map Prod.fst
        ∧ (XPlane.add_dataref_to_monitor st path freqArg).1.datarefs
            = st.datarefs ++ [(st.datarefidx, path)]
        ∧ (XPlane.add_dataref_to_monitor st path freqArg).1.datarefidx
            = st.datarefidx + 1)
    ∧ KeysBelow (XPlane.start st monitored)
    ∧ st.datarefidx ≤ (XPlane.start st monitored).datarefidx := by
  have hadd := add_preserves st path freqArg hkb
  have hstart := start_preserves st monitored hkb
  refine ⟨hadd.1, hadd.2, ?_, hstart.1, hstart.2⟩
  intro h1 h2 h3 h4
  have hfresh : st.datarefidx ∉ st.datarefs.map Prod.fst := by
    intro hmem
    exact absurd (hkb st.datarefidx hmem) (lt_irrefl _)
  rw [add_dataref_new st path freqArg h1 h2 h3 h4]
  refine ⟨hfresh, ?_, rfl⟩
  exact aset_eq_append st.datarefs st.datarefidx path hfresh

/-- Witness for C3 at the concrete initial state: the first accepted path
is appended with index `datarefidx = 0`. -/
theorem index_assignment_witness :
    KeysBelow xpInit
    ∧ (XPlane.add_dataref_to_monitor xpInit "sim/alt" (some 1)).1.datarefs
        = xpInit.datarefs ++ [(0, "sim/alt")] := by
  refine ⟨by decide, ?_⟩
  exact ((index_assignment xpInit "sim/alt" (some 1) [] (by decide)).2.2.1
    (by decide) (by decide) (by decide) (by decide)).2.1

/-- C4 (code_bug).  Cancelling a subscription for a path that was never
subscribed (`add_dataref_to_monitor(path, freq=0)` with the path absent
from the table, which is exactly what `remove_dataref_from_monitor(path)`
does) INSERTS the path into the active-subscription table at a fresh index
and consumes that index: the `freq != 0` capacity guard does not prevent
the unconditional insertion that follows.  Evaluated at the failing input:
a connected state with an empty table. -/
theorem cancel_unsubscribed_inserts :
    akeyOfValue xpInit.datarefs "sim/test" = none
    ∧ (XPlane.add_dataref_to_monitor xpInit "sim/test" (some 0)).1.datarefs
        = [(0, "sim/test")]
    ∧ (XPlane.add_dataref_to_monitor xpInit "sim/test" (some 0)).1.datarefidx = 1
    ∧ (XPlane.add_dataref_to_monitor xpInit "sim/test" (some 0)).2.1 = true := by
  decide

/-! ### C5: RREF frame encoding -/

set_option maxRecDepth 100000

theorem pack400_length (bytes : List ℕ) : (pack400 bytes).length = 400 := by
  unfold pack400
  rw [List.length_append, List.length_replicate, List.length_take]
  omega

theorem pack400_pad (bytes : List ℕ) (j : ℕ)
    (h1 : bytes.length ≤ j) (h2 : j < 400) :
    (pack400 bytes)[j]? = some 0 := by
  unfold pack400
  have hle : (bytes.take 400).length ≤ j := by
    rw [List.length_take]; omega
  rw [List.getElem?_append_right hle, List.getElem?_replicate, if_pos]
  rw [List.length_take]
  omega

theorem pack400_path (bytes : List ℕ) (j : ℕ)
    (h1 : j < bytes.length) (h2 : j < 400) :
    (pack400 bytes)[j]? = bytes[j]? := by
  unfold pack400
  have hlt : j < (bytes.take 400).length := by
    rw [List.length_take]; omega
  rw [List.getElem?_append, if_pos hlt, List.getElem?_take, if_pos h2]

/-- C5, counterexample.  The 400-byte path field of the RREF frame is
padded with NULL bytes, not spaces: for the 7-byte path "sim/alt", the
first byte after the path (offset 7 in the field, absolute offset 20) is
0, not 32 (ASCII space), contradicting "right-padded with spaces". -/
theorem encode_subscribe_counterexample :
    (encodeRREF 1 0 "sim/alt")[13 + 7]? = some 0
    ∧ (encodeRREF 1 0 "sim/alt")[13 + 7]? ≠ some 32 := by
  decide

/-- C5 (corrected).  The RREF request frame is exactly 413 bytes: the
5-byte tag b"RREF\x00", the little-endian int32 frequency, the
little-endian int32 index, then a 400-byte path field holding the UTF-8
bytes of the path (truncated at 400) followed by NULL padding — so for a
path shorter than 400 bytes the path is null-terminated and right-padded
with null bytes (struct "400s"), not with spaces. -/
theorem encode_subscribe_frame (freq idx : ℤ) (path : String) :
    (encodeRREF freq idx path).length = 413
    ∧ (encodeRREF freq idx path).take 5 = rrefTag
    ∧ ((encodeRREF freq idx path).drop 5).take 4 = int32LE freq
    ∧ ((encodeRREF freq idx path).drop 9).take 4 = int32LE idx
    ∧ (∀ j, j < (strBytes path).length → j < 400 →
        (encodeRREF freq idx path)[13 + j]? = (strBytes path)[j]?)
    ∧ (∀ j, (strBytes path).length ≤ j → j < 400 →
        (encodeRREF freq idx path)[13 + j]? = some 0) := by
  have hlen : (encodeRREF freq idx path).length = 413 := by
    unfold encodeRREF
    rw [List.length_append, List.length_append, List.length_append,
      pack400_length]
    rfl
  have hpre : ∀ j, (encodeRREF freq idx path)[13 + j]? = (pack400 (strBytes path))[j]? := by
    intro j
    unfold encodeRREF
    rw [List.append_assoc, List.append_assoc]
    rw [show rrefTag ++ (int32LE freq ++ (int32LE idx ++ pack400 (strBytes path)))
        = (rrefTag ++ int32LE freq ++ int32LE idx) ++ pack400 (strBytes path) by
      simp [List.append_assoc]]
    have h13 : (rrefTag ++ int32LE freq ++ int32LE idx).length = 13 := rfl
    rw [List.getElem?_append_right (by rw [h13]; omega), h13]
    congr 1
    omega
  refine ⟨hlen, rfl, rfl, rfl, ?_, ?_⟩
  · intro j hj h400
    rw [hpre j, pack400_path (strBytes path) j hj h400]
  · intro j hj h400
    rw [hpre j, pack400_pad (strBytes path) j hj h400]

/-- Witness for C5 at freq 1, index 0, path "sim/alt" (7 bytes): byte 13
is the first path byte 115 = 's', and byte 20 is the null pad byte. -/
theorem encode_subscribe_frame_witness :
    (0 : ℕ) < (strBytes "sim/alt").length ∧ (strBytes "sim/alt").length ≤ 7
    ∧ (encodeRREF 1 0 "sim/alt")[13 + 0]? = (strBytes "sim/alt")[0]?
    ∧ (encodeRREF 1 0 "sim/alt")[13 + 7]? = some 0 := by
  refine ⟨by decide, by decide, ?_, ?_⟩
  · exact (encode_subscribe_frame 1 0 "sim/alt").2.2.2.2.1 0 (by decide) (by decide)
  · exact (encode_subscribe_frame 1 0 "sim/alt").2.2.2.2.2 7 (by decide) (by decide)

/-! ### C6: beacon version handling -/

/-- A well-formed beacon from an X-Plane master whose simulator version
120000 is below XP_MIN_VERSION = 121100. -/
def oldBeacon : BeaconFields := ⟨1, 1, 1, 120000, 1, 49000⟩

/-- C6, counterexample.  A beacon advertising simulator version 120000,
below the minimum supported version 121100, does NOT produce the
unsupported-version failure: `connect_loop` only logs a warning and calls
`self.start()`, so the data channels are started for that peer. -/
theorem unsupported_version_counterexample :
    oldBeacon.xplane_version_number < XP_MIN_VERSION
    ∧ connectAttempt (some (true, oldBeacon)) = AttemptOutcome.started true
    ∧ AttemptOutcome.started true ≠ AttemptOutcome.versionError := by
  refine ⟨by decide, by decide, by decide⟩

/-- C6 (corrected).  The distinct unsupported-version failure
(XPlaneVersionNotSupported) is raised exactly when the beacon protocol
fields are unsupported (`beacon_major_version != 1` or
`beacon_minor_version > 2` or `application_host_id != 1`); when those
fields are accepted, the connection attempt always starts the data
channels, and a simulator version below XP_MIN_VERSION only causes a
logged warning; a socket timeout yields the distinct not-found failure. -/
theorem beacon_version_handling (b : BeaconFields) :
    (connectAttempt (some (true, b)) = AttemptOutcome.versionError ↔
      ¬(b.beacon_major_version = 1 ∧ b.beacon_minor_version ≤ 2 ∧
        b.application_host_id = 1))
    ∧ ((b.beacon_major_version = 1 ∧ b.beacon_minor_version ≤ 2 ∧
        b.application_host_id = 1) →
      connectAttempt (some (true, b))
        = AttemptOutcome.started
            (decide (b.xplane_version_number < XP_MIN_VERSION)))
    ∧ connectAttempt none = AttemptOutcome.notFoundError := by
  by_cases hb : b.beacon_major_version = 1 ∧ b.beacon_minor_version ≤ 2 ∧
      b.application_host_id = 1
  · refine ⟨?_, ?_, rfl⟩
    · simp [connectAttempt, FindIp, hb]
    · intro _
      simp [connectAttempt, FindIp, hb]
  · refine ⟨?_, fun h => absurd h hb, rfl⟩
    simp [connectAttempt, FindIp, hb]

/-- Witness for C6 at the concrete old-version beacon: the protocol fields
are accepted and the attempt starts the channels with the version
warning. -/
theorem beacon_version_handling_witness :
    (oldBeacon.beacon_major_version = 1 ∧ oldBeacon.beacon_minor_version ≤ 2
      ∧ oldBeacon.application_host_id = 1)
    ∧ connectAttempt (some (true, oldBeacon))
        = AttemptOutcome.started
            (decide (oldBeacon.xplane_version_number < XP_MIN_VERSION)) := by
  refine ⟨by decide, ?_⟩
  exact (beacon_version_handling oldBeacon).2.1 (by decide)

/-! ### C7, C10: listener notification semantics of update_value -/

theorem filter_isChanged_map_updated (l : List ℕ) (s : String) :
    (l.map (fun x => Notif.updated x s)).filter Notif.isChanged = [] := by
  induction l with
  | nil => rfl
  | cons hd tl ih => simp [List.filter_cons, Notif.isChanged, ih]

theorem filter_isChanged_map_changed (l : List ℕ) (s : String) :
    (l.map (fun x => Notif.changed x s)).filter Notif.isChanged
      = l.map (fun x => Notif.changed x s) := by
  induction l with
  | nil => rfl
  | cons hd tl ih => simp [List.filter_cons, Notif.isChanged, ih]

theorem filter_isUpdated_map_updated (l : List ℕ) (s : String) :
    (l.map (fun x => Notif.updated x s)).filter Notif.isUpdated
      = l.map (fun x => Notif.updated x s) := by
  induction l with
  | nil => rfl
  | cons hd tl ih => simp [List.filter_cons, Notif.isUpdated, ih]

theorem filter_isUpdated_map_changed (l : List ℕ) (s : String) :
    (l.map (fun x => Notif.changed x s)).filter Notif.isUpdated = [] := by
  induction l with
  | nil => rfl
  | cons hd tl ih => simp [List.filter_cons, Notif.isUpdated, ih]

/-- Bumping `_changed` does not affect `has_changed` (it reads only the
value fields). -/
theorem has_changed_changed_count (x : Dataref) (n : ℕ) :
    ({ x with changed_count := n } : Dataref).has_changed = x.has_changed := rfl

/-- Structure of the notifications emitted by one `update_value` call: the
`dataref_updated` callbacks to every listener, followed — exactly when the
call reports a change and `cascade` is set — by the `dataref_changed`
callbacks to every listener. -/
theorem store_value_listeners (d : Dataref) (v : SimValue) :
    (d.store_value v).listeners = d.listeners := rfl

theorem store_value_path (d : Dataref) (v : SimValue) :
    (d.store_value v).path = d.path := rfl

theorem store_value_previous (d : Dataref) (v : SimValue) :
    (d.store_value v).previous_value = d.current_value := rfl

theorem store_value_current (d : Dataref) (v : SimValue) :
    (d.store_value v).current_value
      = (if d.is_string then some v else some (d.roundVal v)) := rfl

theorem store_value_updated_count (d : Dataref) (v : SimValue) :
    (d.store_value v).updated_count = d.updated_count + 1 := rfl

theorem update_value_out (d : Dataref) (v : SimValue) (c : Bool) :
    (d.update_value v c).2.1
      = d.listeners.map (fun l => Notif.updated l d.path)
        ++ (if c = true ∧ (d.update_value v c).2.2 = true
            then d.listeners.map (fun l => Notif.changed l d.path) else []) := by
  simp only [Dataref.update_value]
  by_cases hch : (d.store_value v).has_changed = true
  · simp only [hch, eq_self_iff_true, if_true]
    simp only [Dataref.notify]
    simp only [has_changed_changed_count, hch, eq_self_iff_true, if_true]
    simp only [Dataref.notify_updated, store_value_listeners, store_value_path]
    cases c with
    | false => simp
    | true => simp
  · simp only [Bool.not_eq_true] at hch
    simp only [hch, Bool.false_eq_true, if_false]
    simp [Dataref.notify_updated, store_value_listeners, store_value_path]

theorem update_value_fst_current (d : Dataref) (v : SimValue) (c : Bool) :
    (d.update_value v c).1.current_value = (d.store_value v).current_value := by
  simp only [Dataref.update_value]
  split <;> rfl

theorem update_value_fst_updated (d : Dataref) (v : SimValue) (c : Bool) :
    (d.update_value v c).1.updated_count = (d.store_value v).updated_count := by
  simp only [Dataref.update_value]
  split <;> rfl

/-- C7 (corrected).  An update with `cascade=false` stores the value and
bumps the update counter but sends NO change notification
(`dataref_changed`) to any listener — it does, however, still send the
unconditional `dataref_updated` callback to every listener, so it is not
true that no listener is notified at all (see the counterexample).  With
`cascade=true`, whenever the call reports a change (the applied value
differs from the previous one) the `dataref_changed` notification is
additionally sent to every registered listener, and when it reports no
change no `dataref_changed` is sent. -/
theorem cascade_semantics (d : Dataref) (v : SimValue) :
    ((d.update_value v false).2.1.filter Notif.isChanged = [])
    ∧ ((d.update_value v false).1.current_value
        = (if d.is_string then some v else some (d.roundVal v)))
    ∧ ((d.update_value v false).1.updated_count = d.updated_count + 1)
    ∧ ((d.update_value v true).2.2 = true →
        (d.update_value v true).2.1.filter Notif.isChanged
          = d.listeners.map (fun l => Notif.changed l d.path))
    ∧ ((d.update_value v true).2.2 = false →
        (d.update_value v true).2.1.filter Notif.isChanged = []) := by
  refine ⟨?_, ?_, ?_, ?_, ?_⟩
  · rw [update_value_out]
    simp [List.filter_append, filter_isChanged_map_updated]
  · rw [update_value_fst_current, store_value_current]
  · rw [update_value_fst_updated, store_value_updated_count]
  · intro h
    rw [update_value_out]
    simp [h, List.filter_append, filter_isChanged_map_updated,
      filter_isChanged_map_changed]
  · intro h
    rw [update_value_out]
    simp [h, List.filter_append, filter_isChanged_map_updated]

/-- A dataref at "sim/alt" with one registered listener (id 7) and no
value yet. -/
def d0 : Dataref := ⟨"sim/alt", false, none, none, none, none, none, 0, 0, [7]⟩

/-- C7, counterexample.  Updating with `cascade=false` does notify a
listener: the registered listener 7 receives the `dataref_updated`
callback (from `notify_updated`, which `update_value` always calls),
contradicting "without notifying any listener". -/
theorem cascade_false_counterexample :
    (Dataref.update_value d0 (SimValue.num 1) false).2.1
      = [Notif.updated 7 "sim/alt"]
    ∧ ([Notif.updated 7 "sim/alt"] : List Notif) ≠ [] := by
  decide

/-- Witness for C7 at the concrete dataref `d0`: the cascade=true update
from no value to 1 reports a change and listener 7 receives
`dataref_changed`. -/
theorem cascade_semantics_witness :
    (Dataref.update_value d0 (SimValue.num 1) true).2.2 = true
    ∧ (Dataref.update_value d0 (SimValue.num 1) true).2.1.filter Notif.isChanged
        = [Notif.changed 7 "sim/alt"] := by
  refine ⟨by decide, ?_⟩
  rw [(cascade_semantics d0 (SimValue.num 1)).2.2.2.1 (by decide)]
  decide

/-- C10 (confirmed).  Every `update_value` call sends `dataref_updated` to
every registered listener exactly once, in registration order, regardless
of the cascade flag and of whether the value changed; only
`dataref_changed` is conditional. -/
theorem updated_always_notified (d : Dataref) (v : SimValue) (c : Bool) :
    (d.update_value v c).2.1.filter Notif.isUpdated
      = d.listeners.map (fun l => Notif.updated l d.path)
    ∧ (d.listeners.Nodup → ∀ l : ℕ,
        (d.update_value v c).2.1.count (Notif.updated l d.path)
          = if l ∈ d.listeners then 1 else 0) := by
  have hout := update_value_out d v c
  constructor
  · rw [hout]
    by_cases h : c = true ∧ (d.update_value v c).2.2 = true
    · rw [if_pos h, List.filter_append, filter_isUpdated_map_updated,
        filter_isUpdated_map_changed, List.append_nil]
    · rw [if_neg h, List.filter_append, filter_isUpdated_map_updated]
      simp
  · intro hnodup l
    rw [hout, List.count_append]
    have hinj : Function.Injective (fun x : ℕ => Notif.updated x d.path) := by
      intro a b hab
      simpa using hab
    have h1 : (d.listeners.map (fun x => Notif.updated x d.path)).count
        (Notif.updated l d.path) = if l ∈ d.listeners then 1 else 0 := by
      rw [List.count_map_of_injective d.listeners _ hinj l]
      by_cases hm : l ∈ d.listeners
      · rw [if_pos hm]
        exact List.count_eq_one_of_mem hnodup hm
      · rw [if_neg hm]
        exact List.count_eq_zero_of_not_mem hm
    have h2 : ((if c = true ∧ (d.update_value v c).2.2 = true
        then d.listeners.map (fun x => Notif.changed x d.path)
        else []) : List Notif).count (Notif.updated l d.path) = 0 := by
      split
      · apply List.count_eq_zero_of_not_mem
        simp
      · rfl
    rw [h1, h2, Nat.add_zero]

/-- Witness for C10 at the concrete dataref `d0` (its single listener 7 is
trivially without duplicates): listener 7 is counted exactly once. -/
theorem updated_always_notified_witness :
    (d0.listeners.Nodup)
    ∧ (Dataref.update_value d0 (SimValue.num 1) false).2.1.count
        (Notif.updated 7 d0.path) = 1 := by
  refine ⟨by decide, ?_⟩
  have h := (updated_always_notified d0 (SimValue.num 1) false).2 (by decide) 7
  rw [h]
  decide

/-! ### C8: negative-zero normalization in udp_enqueue -/

theorem roundHalfEven_zero : roundHalfEven 0 = 0 := by
  unfold roundHalfEven
  norm_num

theorem pyRound_zero (n : ℕ) : pyRound 0 n = 0 := by
  unfold pyRound
  rw [zero_mul, roundHalfEven_zero]
  norm_num

/-- C8 (confirmed).  For every decoded (index, value) pair whose index
resolves to a monitored path, if the decoded value lies in (−0.001, 0)
then the value recorded in the `_dref_cache` for that path is +0.0, and
the enqueued DatarefEvent (when the cache check lets one through) carries
value +0.0 as well. -/
theorem negzero_normalized (datarefs : List (ℕ × String))
    (cache : List (String × ℚ)) (rounding : String → Option ℕ)
    (monitorTable : List (String × ℤ)) (idx : ℕ) (value : ℚ) (d : String)
    (hd : alookup datarefs idx = some d)
    (hneg : value < 0) (hgt : -(1 / 1000) < value) :
    alookup (udpProcessValue datarefs cache rounding monitorTable idx value).1 d
      = some 0
    ∧ (∀ p x casc,
        (udpProcessValue datarefs cache rounding monitorTable idx value).2
          = some (p, x, casc) → x = 0) := by
  unfold udpProcessValue
  simp only [hd]
  have hnorm : (if value < 0 ∧ -(1 / 1000) < value then (0 : ℚ) else value) = 0 :=
    if_pos ⟨hneg, hgt⟩
  rw [hnorm]
  have hv0 : (match rounding d with
      | some r => pyRound (0 : ℚ) r
      | none => (0 : ℚ)) = 0 := by
    cases rounding d with
    | none => rfl
    | some r => exact pyRound_zero r
  rw [hv0]
  split
  · constructor
    · rw [alookup_aset_self]
    · intro p x casc hx
      simp only [Option.some.injEq, Prod.mk.injEq] at hx
      exact hx.2.1.symm
  · next hcond =>
    push_neg at hcond
    constructor
    · cases halk : alookup cache d with
      | none => rw [halk] at hcond; simp at hcond
      | some q =>
        rw [halk] at hcond
        exact hcond.2 (by simp)
    · intro p x casc hx
      simp at hx

/-- Witness for C8 at a concrete decoded pair: index 0 resolves to
"sim/vvi", the decoded value −1/2000 = −0.0005 lies in (−0.001, 0), and
the cache records +0.0. -/
theorem negzero_normalized_witness :
    ((-(1 / 2000) : ℚ) < 0) ∧ ((-(1 / 1000) : ℚ) < -(1 / 2000))
    ∧ alookup
        (udpProcessValue [(0, "sim/vvi")] [] (fun _ => none) [] 0
          (-(1 / 2000))).1 "sim/vvi" = some 0 := by
  refine ⟨by norm_num, by norm_num, ?_⟩
  exact (negzero_normalized [(0, "sim/vvi")] [] (fun _ => none) [] 0
    (-(1 / 2000)) "sim/vvi" (by decide) (by norm_num) (by norm_num)).1

/-! ### C9: event queue ordering -/

/-- One step preserves the queue accounting identity: what was delivered,
followed by what is still queued, is exactly the global enqueue history. -/
theorem loopStep_invariant (st : LoopState) (s : LoopStep)
    (h : st.delivered ++ st.queue = st.enqueued) :
    (loopStep st s).delivered ++ (loopStep st s).queue
      = (loopStep st s).enqueued := by
  cases s with
  | put it =>
    simp only [loopStep]
    rw [← List.append_assoc, h]
  | consume =>
    cases hrun : st.running with
    | false => simpa [loopStep, hrun] using h
    | true =>
      cases hq : st.queue with
      | nil => simpa [loopStep, hrun, hq] using h
      | cons e rest =>
        simp only [loopStep, hrun, hq, if_true]
        rw [← h, hq]
        simp

/-- C9 (confirmed).  For every interleaving of producer puts and consumer
iterations starting from the initial state, the delivered sequence
followed by the still-queued items equals the global enqueue history; in
particular the delivered sequence is a prefix of the enqueue history, so
events are delivered in exactly the order they were enqueued, globally
across all producers, one event per consumer iteration. -/
theorem event_fifo_order (steps : List LoopStep) :
    (runLoop initLoopState steps).delivered ++ (runLoop initLoopState steps).queue
      = (runLoop initLoopState steps).enqueued
    ∧ (runLoop initLoopState steps).delivered
        <+: (runLoop initLoopState steps).enqueued := by
  have key : ∀ (l : List LoopStep) (st : LoopState),
      st.delivered ++ st.queue = st.enqueued →
      (runLoop st l).delivered ++ (runLoop st l).queue = (runLoop st l).enqueued := by
    intro l
    induction l with
    | nil => intro st h; exact h
    | cons s rest ih =>
      intro st h
      exact ih (loopStep st s) (loopStep_invariant st s h)
  have h := key steps initLoopState rfl
  exact ⟨h, ⟨(runLoop initLoopState steps).queue, h⟩⟩
